import Mathlib

/- Shallow embedding of the real-time conversational core of the
   ai-meeting-proxy service, translated from the Python sources:
   `bot/audio_bridge.py` (linear-interpolation resampling and teardown),
   `bot/conversation.py` (conversational session state),
   `bot/meeting_conversation.py` (response classification),
   `bot/gemini_live.py` (Gemini Live receive loop, reconnection, registry),
   `bot/ws_audio.py` and `bot/local_meeting.py` (the two orchestrator
   variants).  Python floats are modelled as exact rationals, Python `str`
   as Lean `String` acting on its underlying character list (Python's
   Unicode lowercasing is modelled by ASCII lowercasing, which is faithful
   for the ASCII-plus-Japanese alphabets in play since Japanese has no
   case), and Python exceptions as `Except`. -/

namespace MeetingProxy

/-! ## Character-list models of the Python string operations used by the core -/

/-- Model of Python `str.lower` on the character list (ASCII lowercasing). -/
def lowerChars (cs : List Char) : List Char := cs.map Char.toLower

/-- Drop leading whitespace characters (model of Python `str.lstrip`). -/
def dropWs : List Char → List Char
  | [] => []
  | c :: cs => if c.isWhitespace then dropWs cs else c :: cs

/-- Strip leading and trailing whitespace (model of Python `str.strip`). -/
def trimChars (cs : List Char) : List Char :=
  dropWs ((dropWs cs.reverse).reverse)

/-- Substring containment on character lists (model of Python `needle in hay`). -/
def hasSub : List Char → List Char → Bool
  | [], needle => needle.isEmpty
  | c :: t, needle => needle.isPrefixOf (c :: t) || hasSub t needle

/-- Model of Python `str.split(",")`: split at every comma, keeping empties. -/
def splitComma : List Char → List (List Char)
  | [] => [[]]
  | c :: t =>
    let rest := splitComma t
    if c = ',' then [] :: rest
    else
      match rest with
      | [] => [[c]]
      | r :: rs => (c :: r) :: rs

/-- String-level lowercasing wrapper. -/
def strLower (s : String) : String := ⟨lowerChars s.data⟩

/-- String-level strip wrapper. -/
def strTrim (s : String) : String := ⟨trimChars s.data⟩

/-! ## Conversational session state (`bot/conversation.py`) -/

/-- A single utterance (`Utterance` dataclass).  The wall-clock `timestamp`
field is omitted: it is write-only in the modelled operations (never read by
`add_utterance`, `should_respond` or `build_conversation_prompt`). -/
structure Utterance where
  speaker : String
  text : String
deriving DecidableEq, Repr

/-- State of one `ConversationSession`: bot id and display name, utterance
history, the in-flight-response lock, and the lowercased trigger list. -/
structure ConversationState where
  botId : String
  botName : String
  history : List Utterance
  isResponding : Bool
  triggers : List String
deriving DecidableEq, Repr

/-- Model of `ConversationSession._parse_triggers`: the comma-separated
configured trigger string is split, blanks discarded, entries stripped and
lowercased, and the lowercased bot display name is appended. -/
def parseTriggers (responseTriggers : String) (botName : String) : List String :=
  let base : List String :=
    if responseTriggers = "" then []
    else
      ((splitComma responseTriggers.data).filter (fun t => trimChars t ≠ [])).map
        (fun t => ⟨lowerChars (trimChars t)⟩)
  base ++ [strLower botName]

/-- Python list slice `l[-m:]`.  Note the `m = 0` quirk: `l[-0:]` is `l[0:]`,
the whole list, not the empty list. -/
def pyLastSlice (l : List α) (m : Nat) : List α :=
  if m = 0 then l else l.drop (l.length - m)

/-- Model of `ConversationSession.add_utterance` acting on the history list:
append, then if the length exceeds the configured maximum keep `h[-max:]`. -/
def addUtterance (maxHist : Nat) (h : List Utterance) (u : Utterance) : List Utterance :=
  let h2 := h ++ [u]
  if maxHist < h2.length then pyLastSlice h2 maxHist else h2

/-- A sequence of `add_utterance` calls starting from a given history. -/
def addAll (maxHist : Nat) (h : List Utterance) (us : List Utterance) : List Utterance :=
  us.foldl (addUtterance maxHist) h

/-- The for-loop over triggers with early return in `should_respond`. -/
def firstTriggerHit : List String → List Char → Bool
  | [], _ => false
  | t :: ts, text => if hasSub text t.data then true else firstTriggerHit ts text

/-- The question-marker endings checked by `should_respond`:
half/full-width question mark and the sentence-final particle patterns. -/
def questionEnding (cs : List Char) : Bool :=
  if "？".data.isSuffixOf cs then true
  else if "?".data.isSuffixOf cs then true
  else if "か".data.isSuffixOf cs then true
  else if "か。".data.isSuffixOf cs then true
  else false

/-- Model of `ConversationSession.should_respond`: false while the response
lock is held; otherwise the text is lowercased and stripped, the triggers are
scanned for a substring hit, and failing that the question endings are
checked.  The `speaker` argument is accepted but, as in the source, unused. -/
def shouldRespond (s : ConversationState) (_speaker text : String) : Bool :=
  if s.isResponding then false
  else
    let textLower := trimChars (lowerChars text.data)
    if firstTriggerHit s.triggers textLower then true
    else questionEnding textLower

/-! ## Response classification (`bot/meeting_conversation.py`, `bot/ws_audio.py`,
`bot/local_meeting.py`) -/

/-- The lowercased form of the leading tag matched by the case-insensitive
regex alternative `ANSWERED` (brackets included). -/
def tagAnswered : List Char := "[answered]".data

/-- The lowercased form of the leading tag matched by the case-insensitive
regex alternative `TAKEN_BACK` (brackets included). -/
def tagTakenBack : List Char := "[taken_back]".data

/-- Model of `MeetingConversationSession.classify_response`.  The regex
`\[(ANSWERED|TAKEN_BACK)\]\s*` anchored at the start is modelled as a
case-insensitive prefix test against the bracketed tag; the whitespace the
regex consumes after the tag is subsumed by the subsequent `str.strip` of the
remainder (`text[match.end():].strip()`), so the clean text is the stripped
remainder after the tag itself. -/
def classifyResponse (text : String) : String × Option String :=
  let cs := text.data
  if tagAnswered.isPrefixOf (lowerChars cs) then
    (⟨trimChars (cs.drop tagAnswered.length)⟩, some "answered")
  else if tagTakenBack.isPrefixOf (lowerChars cs) then
    (⟨trimChars (cs.drop tagTakenBack.length)⟩, some "taken_back")
  else (text, none)

/-- The deferral-phrase alternatives of `_TAKEN_BACK_PATTERN` (identical in
`ws_audio.py` and `local_meeting.py`). -/
def deferralPhrases : List String := ["持ち帰", "確認して", "検討し", "後日", "本人に確認"]

/-- Model of `_classify_by_content` (identical in `ws_audio.py` and
`local_meeting.py`): `None` for empty or short (stripped length below 5)
text, otherwise `taken_back` when the deferral regex finds a match anywhere
in the original text, otherwise `answered`. -/
def classifyByContent (text : String) : Option String :=
  if text = "" || (trimChars text.data).length < 5 then none
  else if deferralPhrases.any (fun p => hasSub text.data p.data) then some "taken_back"
  else some "answered"

/-- The content fallback as the claim sentence orders its cases: a deferral
phrase anywhere yields `taken_back` outright, non-trivial text without one
yields `answered`, and only remaining short text yields `None`. -/
def classifyByContentClaim (text : String) : Option String :=
  if deferralPhrases.any (fun p => hasSub text.data p.data) then some "taken_back"
  else if 5 ≤ (trimChars text.data).length then some "answered"
  else none

/-! ## Echo-suppression mute window (`bot/ws_audio.py`, `bot/local_meeting.py`) -/

/-- Model of `_compute_mute_seconds` in `ws_audio.py`: playback durations at
or below zero short-circuit to 0.5, otherwise the clamped tail margin. -/
def computeMuteSeconds (t : ℚ) : ℚ :=
  if t ≤ 0 then 1/2 else min (max (t + 6/10) (1/2)) 12

/-- The inline mute formula of `LocalMeetingSession._handle_turn`
(`min(max(playback_seconds + 0.6, 0.5), 12.0)`, no zero special case). -/
def localMuteSeconds (t : ℚ) : ℚ := min (max (t + 6/10) (1/2)) 12

/-- The mute window as the specification words it:
`clamp(audioPlaybackSeconds + 0.6, 0.5, 12.0)`. -/
def muteClampSpec (t : ℚ) : ℚ := min (max (t + 6/10) (5/10)) 12

/-! ## Linear-interpolation resampling (`bot/audio_bridge.py`) -/

/-- Model of `np.linspace(a, b, n)`: `n` evenly spaced points from `a` to
`b` inclusive (a single point is `a`; zero points is empty). -/
def linspaceQ (a b : ℚ) (n : ℕ) : List ℚ :=
  if n = 0 then []
  else if n = 1 then [a]
  else (List.range n).map (fun i : ℕ => a + (b - a) * (i : ℚ) / ((n : ℚ) - 1))

/-- Model of `np.interp` at one query point against sample points
`0, 1, ..., len-1` with values `data`: clamped at the ends, linear between
consecutive integer positions.  (Unreachable for empty `data`: `np.interp`
raises there, which `pyResample` models with `none`.) -/
def interpAt (data : List ℚ) (x : ℚ) : ℚ :=
  match data with
  | [] => 0
  | d0 :: _ =>
    if x ≤ 0 then d0
    else if ((data.length : ℚ) - 1) ≤ x then data.getD (data.length - 1) 0
    else
      let i : ℕ := (⌊x⌋).toNat
      data.getD i 0 + (x - i) * (data.getD (i + 1) 0 - data.getD i 0)

/-- Model of `_resample`: identity when the rates are equal; otherwise the
output sample count is `int(len(data) * (dst_rate / src_rate))` — float
arithmetic modelled as exact rational arithmetic, so truncation becomes
natural-number division — and the samples are linear interpolations at
`np.linspace(0, len-1, n)`.  An empty input with differing rates is `none`:
`np.interp` raises `ValueError` on an empty sample-point array. -/
def pyResample (data : List ℚ) (srcRate dstRate : ℕ) : Option (List ℚ) :=
  if srcRate = dstRate then some data
  else if data.isEmpty then none
  else
    let n : ℕ := data.length * dstRate / srcRate
    some ((linspaceQ 0 ((data.length : ℚ) - 1) n).map (interpAt data))

/-! ## Gemini Live receive loop (`GeminiLiveSession._receive_loop`) -/

/-- One part of a `model_turn`: the optional inline audio bytes. -/
structure LivePart where
  inlineData : Option (List Nat)
deriving DecidableEq, Repr

/-- The `server_content` payload of one received response: optional
`model_turn` parts, optional output-transcription text, and the
`turn_complete` marker. -/
structure ServerContent where
  modelTurn : Option (List LivePart)
  outputTranscription : Option String
  turnComplete : Bool
deriving DecidableEq, Repr

/-- One response from `session.receive()`: either `server_content` is
present, or a possible `session_resumption_update` (whose `handle`
attribute may itself be absent) is examined. -/
structure LiveResponse where
  serverContent : Option ServerContent
  sessionResumptionUpdate : Option (Option String)
deriving DecidableEq, Repr

/-- The mutable per-turn accumulation state of a `GeminiLiveSession`:
audio buffer (bytes), text buffer (fragments), and the stored resumption
handle. -/
structure RecvState where
  audioBuffer : List Nat
  textBuffer : List String
  resumptionHandle : Option String
deriving DecidableEq, Repr

/-- Callback invocations dispatched by the receive loop. -/
inductive CallbackEvent where
  | audioChunk (data : List Nat)
  | textChunk (text : String)
  | turnEnd (audio : List Nat) (text : String)
deriving DecidableEq, Repr

/-- The inline audio chunks a `server_content` contributes: parts are
walked only when `model_turn` is truthy and non-empty, and a part counts
only when its `inline_data` is present with truthy (non-empty) bytes. -/
def contentAudioChunks (sc : ServerContent) : List (List Nat) :=
  match sc.modelTurn with
  | none => []
  | some parts =>
    if parts.isEmpty then []
    else
      parts.filterMap (fun p =>
        match p.inlineData with
        | some d => if d.isEmpty then none else some d
        | none => none)

/-- The transcription fragments a `server_content` contributes: the
`output_transcription` object must be present and its text truthy. -/
def contentTextChunks (sc : ServerContent) : List String :=
  match sc.outputTranscription with
  | some t => if t = "" then [] else [t]
  | none => []

/-- One iteration of `GeminiLiveSession._receive_loop` on one received
response: a response without `server_content` only (possibly) stores a
truthy resumption handle; otherwise inline audio is appended to the audio
buffer and forwarded, transcription text is appended to the text buffer and
forwarded, and a `turn_complete` marker swaps both buffers out and delivers
them to the turn-complete callback when at least one is non-empty. -/
def processResponse (s : RecvState) (r : LiveResponse) : RecvState × List CallbackEvent :=
  match r.serverContent with
  | none =>
    match r.sessionResumptionUpdate with
    | some (some h) =>
      if h = "" then (s, []) else ({ s with resumptionHandle := some h }, [])
    | _ => (s, [])
  | some sc =>
    let audioChunks := contentAudioChunks sc
    let textChunks := contentTextChunks sc
    let s1 : RecvState := { s with
      audioBuffer := s.audioBuffer ++ audioChunks.flatten,
      textBuffer := s.textBuffer ++ textChunks }
    let preEvents :=
      audioChunks.map CallbackEvent.audioChunk ++ textChunks.map CallbackEvent.textChunk
    if sc.turnComplete then
      let audio := s1.audioBuffer
      let text := String.join s1.textBuffer
      let s2 : RecvState := { s1 with audioBuffer := [], textBuffer := [] }
      if audio.isEmpty && text = "" then (s2, preEvents)
      else (s2, preEvents ++ [CallbackEvent.turnEnd audio text])
    else (s1, preEvents)

/-- Discriminates turn-complete callback invocations. -/
def isTurnEvent : CallbackEvent → Bool
  | .turnEnd _ _ => true
  | _ => false

/-- A response carrying only a turn-complete marker (no parts, no text). -/
def turnMarkerResponse : LiveResponse :=
  ⟨some ⟨none, none, true⟩, none⟩

/-! ## Orchestrator turn handling: persisted conversation entries -/

/-- A `repo.add_conversation_entry(...)` call as observed by the repository
collaborator. -/
structure RepoEntry where
  meetingId : String
  botId : String
  speaker : String
  text : String
  kind : String
  category : Option String
deriving DecidableEq, Repr

/-- The repository calls of `_persist_bot_response` in `ws_audio.py` and of
`LocalMeetingSession._persist_response`: classify the reply (tag first,
content fallback when untagged), then persist one entry when both the
repository and the meeting id are available. -/
def persistResponse (hasRepo : Bool) (meetingId : Option String)
    (botId speaker : String) (text : String) : List RepoEntry :=
  let (cleanText, category0) := classifyResponse text
  let category :=
    match category0 with
    | none => classifyByContent cleanText
    | some c => some c
  match meetingId with
  | none => []
  | some mid =>
    if hasRepo then [⟨mid, botId, speaker, cleanText, "bot", category⟩] else []

/-- The conversation entries persisted by one iteration of the websocket
sender task `_send_audio_responses` on a dequeued `(audio, text)` pair:
an empty-audio turn is logged and skipped (`continue`) before any
persistence; otherwise the audio is sent and non-empty text persisted. -/
def wsTurnEntries (hasRepo : Bool) (meetingId : Option String)
    (botId speaker : String) (audio : List Nat) (text : String) : List RepoEntry :=
  if audio.isEmpty then []
  else if text = "" then []
  else persistResponse hasRepo meetingId botId speaker text

/-- The conversation entries persisted by
`LocalMeetingSession._handle_turn`: playback happens only for non-empty
audio, and non-empty text is persisted regardless of the audio. -/
def localTurnEntries (hasRepo : Bool) (meetingId : Option String)
    (botId speaker : String) (_audio : List Nat) (text : String) : List RepoEntry :=
  if text = "" then []
  else persistResponse hasRepo meetingId botId speaker text

/-! ## Connection configuration and reconnection (`GeminiLiveSession`) -/

/-- The fields of the `LiveConnectConfig` built by `_build_config` that the
core state machine determines (voice, language and temperature are fixed
configuration passed through unchanged). -/
structure LiveConfig where
  systemInstruction : String
  resumptionHandle : Option String
  outputAudioTranscription : Bool
deriving DecidableEq, Repr

/-- The connection-level state of a `GeminiLiveSession`. -/
structure GeminiState where
  systemInstruction : String
  connected : Bool
  sessionOpen : Bool
  sendErrorLogged : Bool
  resumptionHandle : Option String
deriving DecidableEq, Repr

/-- Model of `_build_config`: the session-resumption handle field always
carries the currently stored resumption handle. -/
def buildConfig (s : GeminiState) : LiveConfig :=
  ⟨s.systemInstruction, s.resumptionHandle, true⟩

/-- The state of a freshly constructed `GeminiLiveSession` before
`connect()`: no stored resumption handle. -/
def initialGeminiState (systemInstruction : String) : GeminiState :=
  ⟨systemInstruction, false, false, false, none⟩

/-- Model of `_reconnect`: mark disconnected, close the old session
(best-effort), rebuild the config from the current state, and attempt the
new connection; on success mark connected and reset the send-error-log
flag, on failure leave the session disconnected.  Returns the new state and
the config handed to `live.connect`. -/
def reconnectStep (s : GeminiState) (connectSucceeds : Bool) : GeminiState × LiveConfig :=
  let s1 : GeminiState := { s with connected := false, sessionOpen := false }
  let cfg := buildConfig s1
  if connectSucceeds then
    ({ s1 with sessionOpen := true, connected := true, sendErrorLogged := false }, cfg)
  else (s1, cfg)

/-! ## Best-effort teardown (`AudioBridge.stop`, `LocalMeetingSession.stop`,
`GeminiLiveSession.disconnect`, `GeminiLiveManager.shutdown`)

Cleanup primitives are modelled as actions on a trace of attempted steps
that either return the extended trace or raise (model of a Python
exception) with that trace; `try/except` blocks in the source become
`tryStep`.  Task cancellations (`task.cancel()` then `await task` under
`contextlib.suppress(asyncio.CancelledError)`) are modelled as non-raising
steps: the task bodies (`_receive_loop`, `_reconnect_timer`,
`_consume_audio`) catch `Exception` and `CancelledError` internally, so
awaiting them re-raises nothing beyond the suppressed cancellation. -/

/-- An effectful cleanup action over the trace of attempted steps. -/
def Act : Type := List String → Except (List String) (List String)

/-- A primitive cleanup call: records its step, then succeeds or raises. -/
def callStep (name : String) (fails : Bool) : Act := fun tr =>
  if fails then Except.error (tr ++ [name]) else Except.ok (tr ++ [name])

/-- A `try: ... except Exception: log` wrapper: failures are absorbed. -/
def tryStep (a : Act) : Act := fun tr =>
  match a tr with
  | Except.ok tr2 => Except.ok tr2
  | Except.error tr2 => Except.ok tr2

/-- Sequential composition: a raise aborts the remaining steps. -/
def andThen (a b : Act) : Act := fun tr =>
  match a tr with
  | Except.ok tr2 => b tr2
  | Except.error tr2 => Except.error tr2

/-- The no-op action (a skipped `if ... is not None` block). -/
def skipStep : Act := fun tr => Except.ok tr

/-- Model of `AudioBridge.stop`: cancel and await the consumer task, close
the capture stream under `try/except`, close the playback stream under
`try/except`.  Each stream's `stop()`/`close()` pair shares one `try`
block, modelled as one per-resource close step. -/
def bridgeStop (hasConsumer hasCapture hasPlayback : Bool)
    (captureFails playbackFails : Bool) : Act :=
  andThen (if hasConsumer then callStep "bridge.cancel_consumer" false else skipStep)
    (andThen (if hasCapture then tryStep (callStep "bridge.close_capture" captureFails) else skipStep)
      (if hasPlayback then tryStep (callStep "bridge.close_playback" playbackFails) else skipStep))

/-- Model of `GeminiLiveSession.disconnect`: cancel and await the reconnect
timer and the receive loop, then close the session context under
`try/except`. -/
def sessionDisconnect (hasReconnectTask hasReceiveTask hasCtx : Bool)
    (closeFails : Bool) : Act :=
  andThen (if hasReconnectTask then callStep "session.cancel_reconnect_timer" false else skipStep)
    (andThen (if hasReceiveTask then callStep "session.cancel_receive_loop" false else skipStep)
      (if hasCtx then tryStep (callStep "session.close_ctx" closeFails) else skipStep))

/-- Model of `LocalMeetingSession.stop`: stop the audio bridge under
`try/except`, leave the meeting via the browser under `try/except`, remove
the live session under `try/except`, update the bot status under
`try/except`. -/
def localStop (hasBridge : Bool) (bridgeCaptureFails bridgePlaybackFails : Bool)
    (leaveFails : Bool) (hasLiveSession : Bool) (removeFails : Bool)
    (hasRepoMeeting : Bool) (statusFails : Bool) : Act :=
  andThen
    (if hasBridge then tryStep (bridgeStop true true true bridgeCaptureFails bridgePlaybackFails)
     else skipStep)
    (andThen (tryStep (callStep "browser.leave" leaveFails))
      (andThen (if hasLiveSession then tryStep (callStep "manager.remove_session" removeFails)
                else skipStep)
        (if hasRepoMeeting then tryStep (callStep "repo.update_bot_status" statusFails)
         else skipStep)))

/-- Model of `GeminiLiveManager.shutdown`: remove every session in turn,
each removal popping the map entry and disconnecting the session (the
per-session close may fail; the loop itself has no `try`). -/
def managerShutdown : List (String × Bool) → Act
  | [] => skipStep
  | s :: rest =>
    andThen
      (andThen (callStep ("manager.pop:" ++ s.1) false)
        (sessionDisconnect true true true s.2))
      (managerShutdown rest)

/-- The trace `bridgeStop` is expected to attempt, independent of failures. -/
def bridgeStopTrace (hasConsumer hasCapture hasPlayback : Bool) : List String :=
  (if hasConsumer then ["bridge.cancel_consumer"] else [])
    ++ (if hasCapture then ["bridge.close_capture"] else [])
    ++ (if hasPlayback then ["bridge.close_playback"] else [])

/-- The trace `localStop` is expected to attempt, independent of failures. -/
def localStopTrace (hasBridge hasLiveSession hasRepoMeeting : Bool) : List String :=
  (if hasBridge then ["bridge.cancel_consumer", "bridge.close_capture", "bridge.close_playback"]
   else [])
    ++ ["browser.leave"]
    ++ (if hasLiveSession then ["manager.remove_session"] else [])
    ++ (if hasRepoMeeting then ["repo.update_bot_status"] else [])

/-- The trace `managerShutdown` is expected to attempt: every session is
popped and fully disconnected, independent of per-session close failures. -/
def shutdownTrace : List (String × Bool) → List String
  | [] => []
  | s :: rest =>
    ("manager.pop:" ++ s.1) :: "session.cancel_reconnect_timer"
      :: "session.cancel_receive_loop" :: "session.close_ctx" :: shutdownTrace rest

/-! ## Supporting lemmas -/

/-- The number of points `linspaceQ` produces is exactly `n`. -/
theorem linspaceQ_length (a b : ℚ) (n : ℕ) : (linspaceQ a b n).length = n := by
  unfold linspaceQ
  by_cases h0 : n = 0
  · simp [h0]
  · by_cases h1 : n = 1
    · simp [h0, h1]
    · rw [if_neg h0, if_neg h1]
      simp

/-- One `add_utterance` step, for a positive bound and an in-bound history,
keeps the tail of the appended history and stays within the bound. -/
theorem addUtterance_drop (N : ℕ) (hN : 1 ≤ N) (h : List Utterance) (u : Utterance)
    (hh : h.length ≤ N) :
    addUtterance N h u = (h ++ [u]).drop (h.length + 1 - N) ∧
      (addUtterance N h u).length ≤ N := by
  unfold addUtterance pyLastSlice
  by_cases hc : N < (h ++ [u]).length
  · rw [if_pos hc, if_neg (by omega)]
    refine ⟨by simp, ?_⟩
    simp only [List.length_drop, List.length_append, List.length_cons, List.length_nil]
    omega
  · rw [if_neg hc]
    simp only [List.length_append, List.length_cons, List.length_nil] at hc
    have hz : h.length + 1 - N = 0 := by omega
    refine ⟨by simp [hz], ?_⟩
    simp only [List.length_append, List.length_cons, List.length_nil]
    omega

/-- Folding `add_utterance` over new utterances, for a positive bound and an
in-bound starting history, keeps exactly the last `N` of the concatenation. -/
theorem addAll_drop (N : ℕ) (hN : 1 ≤ N) :
    ∀ (us h : List Utterance), h.length ≤ N →
      addAll N h us = (h ++ us).drop ((h ++ us).length - N) := by
  intro us
  induction us with
  | nil =>
    intro h hh
    have hz : h.length - N = 0 := by omega
    simp [addAll, hz]
  | cons u rest ih =>
    intro h hh
    have had := addUtterance_drop N hN h u hh
    have step : addAll N h (u :: rest) = addAll N (addUtterance N h u) rest := by
      simp [addAll]
    rw [step, ih _ had.2, had.1]
    have hd1 : h.length + 1 - N ≤ (h ++ [u]).length := by
      simp only [List.length_append, List.length_cons, List.length_nil]
      omega
    rw [← List.drop_append_of_le_length hd1, List.drop_drop]
    have hidx : h.length + 1 - N + (((h ++ [u] ++ rest).drop (h.length + 1 - N)).length - N)
        = (h ++ u :: rest).length - N := by
      simp only [List.length_drop, List.length_append, List.length_cons, List.length_nil]
      omega
    rw [hidx]
    have hl : h ++ [u] ++ rest = h ++ u :: rest := by simp
    rw [hl]

/-! ## Claim C2: resample output count -/

/-- C2 counterexample: a 3-sample input resampled from rate 2 to rate 1
yields 1 sample (`int` truncation of 1.5), while the claimed
`round(len(input) * targetRate / sourceRate)` is 2. -/
theorem resample_count_cex :
    (pyResample [1, 2, 3] 2 1).map List.length = some 1 ∧
    round ((3 * 1 : ℚ) / 2) = 2 := by
  constructor
  · decide
  · norm_num [round_eq]

/-- C2 (amended): `_resample` is the identity when the rates are equal, and
for differing rates and non-empty input returns exactly
`floor(len(input) * targetRate / sourceRate)` samples — truncation, not
rounding (an empty input with differing rates raises inside `np.interp`,
modelled as `none`). -/
theorem resample_length_amended :
    (∀ (data : List ℚ) (r : ℕ), pyResample data r r = some data) ∧
    (∀ (data : List ℚ) (src dst : ℕ), src ≠ dst → data ≠ [] →
      ∃ out, pyResample data src dst = some out ∧
        out.length = data.length * dst / src) := by
  constructor
  · intro data r
    simp [pyResample]
  · intro data src dst hne hdata
    have hempty : data.isEmpty = false := by
      cases data with
      | nil => exact absurd rfl hdata
      | cons a t => rfl
    refine ⟨(linspaceQ 0 ((data.length : ℚ) - 1) (data.length * dst / src)).map (interpAt data),
      ?_, ?_⟩
    · unfold pyResample
      rw [if_neg hne, hempty]
      simp
    · rw [List.length_map, linspaceQ_length]

/-- C2 witness: the amended statement at rate pair (5, 5) for identity and
at (2, 1) on a 3-sample input for the truncated count. -/
theorem resample_length_amended_witness :
    pyResample [1, 2, 3] 5 5 = some [1, 2, 3] ∧
    ((2 : ℕ) ≠ 1 ∧ ([1, 2, 3] : List ℚ) ≠ [] ∧
      ∃ out, pyResample [1, 2, 3] 2 1 = some out ∧ out.length = 3 * 1 / 2) :=
  ⟨resample_length_amended.1 [1, 2, 3] 5, by decide, by decide,
   resample_length_amended.2 [1, 2, 3] 2 1 (by decide) (by decide)⟩

/-! ## Claim C4: echo-suppression mute window -/

/-- C4 counterexample: at playback duration 0 the websocket variant's
`_compute_mute_seconds` returns 0.5, while the claimed
`clamp(0 + 0.6, 0.5, 12.0)` is 0.6. -/
theorem computeMute_clamp_cex :
    computeMuteSeconds 0 = 1/2 ∧ muteClampSpec 0 = 3/5 ∧ (1/2 : ℚ) ≠ 3/5 := by
  refine ⟨by norm_num [computeMuteSeconds], ?_, by norm_num⟩
  unfold muteClampSpec
  rw [show (0 : ℚ) + 6/10 = 3/5 by norm_num]
  rw [max_eq_left (by norm_num), min_eq_left (by norm_num)]

/-- C4 (amended): for every strictly positive playback duration both
orchestrator variants compute `clamp(t + 0.6, 0.5, 12.0)`; the websocket
variant special-cases durations at or below zero to 0.5, so
`computeMute(0) = 0.5`, and `computeMute(1) = 1.6`, `computeMute(20) = 12`. -/
theorem computeMute_amended :
    (∀ t : ℚ, 0 < t →
      computeMuteSeconds t = muteClampSpec t ∧ localMuteSeconds t = muteClampSpec t) ∧
    computeMuteSeconds 0 = 1/2 ∧ computeMuteSeconds 1 = 8/5 ∧ computeMuteSeconds 20 = 12 := by
  refine ⟨fun t ht => ⟨?_, ?_⟩, by norm_num [computeMuteSeconds], ?_, ?_⟩
  · unfold computeMuteSeconds muteClampSpec
    rw [if_neg (not_le.mpr ht)]
    norm_num
  · unfold localMuteSeconds muteClampSpec
    norm_num
  · unfold computeMuteSeconds
    rw [if_neg (by norm_num)]
    rw [show (1 : ℚ) + 6/10 = 8/5 by norm_num]
    rw [max_eq_left (by norm_num), min_eq_left (by norm_num)]
  · unfold computeMuteSeconds
    rw [if_neg (by norm_num)]
    rw [show (20 : ℚ) + 6/10 = 103/5 by norm_num]
    rw [max_eq_left (by norm_num), min_eq_right (by norm_num)]

/-- C4 witness: the amended clamp equalities at playback duration 1. -/
theorem computeMute_amended_witness :
    (0 : ℚ) < 1 ∧
      (computeMuteSeconds 1 = muteClampSpec 1 ∧ localMuteSeconds 1 = muteClampSpec 1) :=
  ⟨by norm_num, computeMute_amended.1 1 (by norm_num)⟩

/-! ## Claim C9: history FIFO eviction -/

/-- C9 counterexample: with max-history bound 0, a single `add_utterance`
leaves one stored utterance (the Python slice `h[-0:]` keeps everything),
so the history is not the last 0 utterances and exceeds the bound. -/
theorem addAll_zero_bound_cex :
    addAll 0 [] [⟨"Alice", "hi"⟩] = [⟨"Alice", "hi"⟩] ∧
    ¬ ((addAll 0 [] [⟨"Alice", "hi"⟩]).length ≤ 0) := by
  constructor
  · rfl
  · decide

/-- C9 (amended): for every max-history bound N ≥ 1 and every utterance
sequence, folding `add_utterance` from the empty history leaves exactly the
last N utterances in insertion order (oldest dropped first), and the stored
length never exceeds N. -/
theorem addAll_fifo (N : ℕ) (hN : 1 ≤ N) (us : List Utterance) :
    addAll N [] us = us.drop (us.length - N) ∧ (addAll N [] us).length ≤ N := by
  have h := addAll_drop N hN us [] (by simp)
  simp only [List.nil_append] at h
  refine ⟨h, ?_⟩
  rw [h, List.length_drop]
  omega

/-- Three sample utterances for the C9 witness. -/
def sampleUtterances : List Utterance := [⟨"A", "m1"⟩, ⟨"B", "m2"⟩, ⟨"C", "m3"⟩]

/-- C9 witness: bound 2 over three inserted utterances keeps the last two. -/
theorem addAll_fifo_witness :
    1 ≤ 2 ∧ (addAll 2 [] sampleUtterances = sampleUtterances.drop (sampleUtterances.length - 2) ∧
      (addAll 2 [] sampleUtterances).length ≤ 2) :=
  ⟨by decide, addAll_fifo 2 (by decide) sampleUtterances⟩

/-! ## Claim C10: the speaker argument is ignored -/

/-- C10: `should_respond` never reads its speaker argument — any two
speakers give the same decision for the same state and text. -/
theorem shouldRespond_speaker_irrelevant (s : ConversationState) (sp1 sp2 text : String) :
    shouldRespond s sp1 text = shouldRespond s sp2 text := rfl

/-! ## Claim C7: resumption token across reconnects -/

/-- C7: a stored resumption token survives `_reconnect` unchanged (whether
the new connection succeeds or fails) and is exactly the handle placed into
the new connection's config by `_build_config`; the config's handle equals
the stored token in every state, and is empty on the first connect, before
any token has arrived. -/
theorem reconnect_preserves_resumption :
    (∀ (s : GeminiState) (ok : Bool) (h : String), s.resumptionHandle = some h →
      (reconnectStep s ok).1.resumptionHandle = some h ∧
      (reconnectStep s ok).2.resumptionHandle = some h) ∧
    (∀ s : GeminiState, (buildConfig s).resumptionHandle = s.resumptionHandle) ∧
    (∀ si : String, (initialGeminiState si).resumptionHandle = none ∧
      (buildConfig (initialGeminiState si)).resumptionHandle = none) := by
  refine ⟨fun s ok h hh => ?_, fun s => rfl, fun si => ⟨rfl, rfl⟩⟩
  unfold reconnectStep buildConfig
  cases ok <;> simp [hh]

/-- C7 witness: a state holding token "tok-1" keeps it across a successful
reconnect and hands it to the new config. -/
theorem reconnect_preserves_resumption_witness :
    (⟨"si", true, true, false, some "tok-1"⟩ : GeminiState).resumptionHandle = some "tok-1" ∧
      ((reconnectStep ⟨"si", true, true, false, some "tok-1"⟩ true).1.resumptionHandle
          = some "tok-1" ∧
        (reconnectStep ⟨"si", true, true, false, some "tok-1"⟩ true).2.resumptionHandle
          = some "tok-1") :=
  ⟨rfl, reconnect_preserves_resumption.1 ⟨"si", true, true, false, some "tok-1"⟩ true "tok-1" rfl⟩

/-! ## Claim C8: best-effort teardown never raises -/

/-- Helper for C8: `sessionDisconnect` with every resource present succeeds
and attempts all three steps, for any trace and any close failure. -/
theorem sessionDisconnect_ok (f : Bool) (tr : List String) :
    sessionDisconnect true true true f tr =
      Except.ok (tr ++ ["session.cancel_reconnect_timer", "session.cancel_receive_loop",
        "session.close_ctx"]) := by
  cases f <;> simp [sessionDisconnect, andThen, callStep, tryStep, skipStep]

/-- Helper for C8: sequencing after an action known to succeed continues
from its trace. -/
theorem andThen_ok {a : Act} {tr tr2 : List String} (h : a tr = Except.ok tr2) (b : Act) :
    andThen a b tr = b tr2 := by
  simp [andThen, h]

/-- Helper for C8: `managerShutdown` succeeds on every session list and
attempts the full per-session teardown of every bot, whatever the
per-session failures. -/
theorem managerShutdown_ok (bots : List (String × Bool)) :
    ∀ tr : List String, managerShutdown bots tr = Except.ok (tr ++ shutdownTrace bots) := by
  induction bots with
  | nil => intro tr; simp [managerShutdown, skipStep, shutdownTrace]
  | cons b rest ih =>
    intro tr
    have hcall : callStep ("manager.pop:" ++ b.1) false tr
        = Except.ok (tr ++ ["manager.pop:" ++ b.1]) := rfl
    have hstep : andThen (callStep ("manager.pop:" ++ b.1) false)
        (sessionDisconnect true true true b.2) tr
        = Except.ok ((tr ++ ["manager.pop:" ++ b.1])
            ++ ["session.cancel_reconnect_timer", "session.cancel_receive_loop",
              "session.close_ctx"]) := by
      rw [andThen_ok hcall]
      exact sessionDisconnect_ok b.2 _
    show andThen _ (managerShutdown rest) tr = _
    rw [andThen_ok hstep, ih]
    simp [shutdownTrace]

/-- C8: the teardown operations never raise and attempt every cleanup step:
`AudioBridge.stop` and `LocalMeetingSession.stop` return successfully with a
step trace that depends only on which resources exist, never on which
cleanup calls fail, and `GeminiLiveManager.shutdown` succeeds on every
session list, attempting the full teardown of every session whatever the
per-session failures. -/
theorem teardown_best_effort :
    (∀ hasConsumer hasCapture hasPlayback captureFails playbackFails : Bool,
      bridgeStop hasConsumer hasCapture hasPlayback captureFails playbackFails []
        = Except.ok (bridgeStopTrace hasConsumer hasCapture hasPlayback)) ∧
    (∀ hasBridge hasLive hasRepoMeeting f1 f2 f3 f4 f5 : Bool,
      localStop hasBridge f1 f2 f3 hasLive f4 hasRepoMeeting f5 []
        = Except.ok (localStopTrace hasBridge hasLive hasRepoMeeting)) ∧
    (∀ bots : List (String × Bool),
      managerShutdown bots [] = Except.ok (shutdownTrace bots)) := by
  refine ⟨?_, ?_, ?_⟩
  · intro hc hcap hp cf pf
    cases hc <;> cases hcap <;> cases hp <;> cases cf <;> cases pf <;> rfl
  · intro hb hl hr f1 f2 f3 f4 f5
    cases hb <;> cases hl <;> cases hr <;> cases f1 <;> cases f2 <;> cases f3 <;> cases f4
      <;> cases f5 <;> rfl
  · intro bots
    simpa using managerShutdown_ok bots []

/-! ## Claim C3: turn-complete delivery -/

/-- Helper for C3: the audio-chunk and text-chunk callbacks fired before a
turn-complete marker are not turn-complete deliveries. -/
theorem filter_turn_preEvents (as : List (List Nat)) (ts : List String) :
    (as.map CallbackEvent.audioChunk ++ ts.map CallbackEvent.textChunk).filter isTurnEvent
      = [] := by
  rw [List.filter_append]
  have h1 : (as.map CallbackEvent.audioChunk).filter isTurnEvent = [] := by
    induction as with
    | nil => rfl
    | cons a t ih => simp [isTurnEvent, ih, List.filter_cons]
  have h2 : (ts.map CallbackEvent.textChunk).filter isTurnEvent = [] := by
    induction ts with
    | nil => rfl
    | cons a t ih => simp [isTurnEvent, ih, List.filter_cons]
  rw [h1, h2]
  rfl

/-- C3: processing a response whose `server_content` carries the
turn-complete marker leaves both accumulation buffers empty, and the
callback events of that response contain exactly one turn-complete
delivery — carrying the turn's accumulated audio and concatenated text —
when at least one of them is non-empty, and none otherwise. -/
theorem turn_complete_delivery (s : RecvState) (r : LiveResponse) (sc : ServerContent)
    (hsc : r.serverContent = some sc) (htc : sc.turnComplete = true) :
    (processResponse s r).1.audioBuffer = [] ∧
    (processResponse s r).1.textBuffer = [] ∧
    (processResponse s r).2.filter isTurnEvent =
      (if s.audioBuffer ++ (contentAudioChunks sc).flatten = []
          ∧ String.join (s.textBuffer ++ contentTextChunks sc) = "" then []
       else [CallbackEvent.turnEnd (s.audioBuffer ++ (contentAudioChunks sc).flatten)
         (String.join (s.textBuffer ++ contentTextChunks sc))]) := by
  unfold processResponse
  simp only [hsc, htc, if_true]
  by_cases hc : s.audioBuffer ++ (contentAudioChunks sc).flatten = []
      ∧ String.join (s.textBuffer ++ contentTextChunks sc) = ""
  · have hb : ((s.audioBuffer ++ (contentAudioChunks sc).flatten).isEmpty
        && (String.join (s.textBuffer ++ contentTextChunks sc) = "" : Bool)) = true := by
      simp [hc.1, hc.2]
    rw [if_pos hb]
    refine ⟨rfl, rfl, ?_⟩
    rw [if_pos hc]
    exact filter_turn_preEvents _ _
  · have hb : ¬(((s.audioBuffer ++ (contentAudioChunks sc).flatten).isEmpty
        && (String.join (s.textBuffer ++ contentTextChunks sc) = "" : Bool)) = true) := by
      intro habs
      rw [Bool.and_eq_true] at habs
      exact hc ⟨by simpa using habs.1, of_decide_eq_true habs.2⟩
    rw [if_neg hb]
    refine ⟨rfl, rfl, ?_⟩
    rw [if_neg hc]
    show (List.map CallbackEvent.audioChunk (contentAudioChunks sc)
        ++ List.map CallbackEvent.textChunk (contentTextChunks sc)
        ++ [CallbackEvent.turnEnd (s.audioBuffer ++ (contentAudioChunks sc).flatten)
          (String.join (s.textBuffer ++ contentTextChunks sc))]).filter isTurnEvent = _
    rw [List.filter_append, filter_turn_preEvents]
    simp [isTurnEvent]

/-- C3 witness: a response with one audio part, one transcription fragment
and the turn-complete marker, against a state already holding buffered
audio and text, delivers exactly one combined turn event and clears both
buffers. -/
theorem turn_complete_delivery_witness :
    ((⟨some ⟨some [⟨some [3]⟩], some "答", true⟩, none⟩ : LiveResponse).serverContent
        = some ⟨some [⟨some [3]⟩], some "答", true⟩) ∧
    ((⟨some [⟨some [3]⟩], some "答", true⟩ : ServerContent).turnComplete = true) ∧
    ((processResponse ⟨[7], ["応"], none⟩
        ⟨some ⟨some [⟨some [3]⟩], some "答", true⟩, none⟩).1.audioBuffer = [] ∧
      (processResponse ⟨[7], ["応"], none⟩
        ⟨some ⟨some [⟨some [3]⟩], some "答", true⟩, none⟩).1.textBuffer = [] ∧
      (processResponse ⟨[7], ["応"], none⟩
          ⟨some ⟨some [⟨some [3]⟩], some "答", true⟩, none⟩).2.filter isTurnEvent =
        (if ([7] : List Nat) ++ (contentAudioChunks ⟨some [⟨some [3]⟩], some "答", true⟩).flatten = []
            ∧ String.join (["応"] ++ contentTextChunks ⟨some [⟨some [3]⟩], some "答", true⟩) = ""
         then []
         else [CallbackEvent.turnEnd
           ([7] ++ (contentAudioChunks ⟨some [⟨some [3]⟩], some "答", true⟩).flatten)
           (String.join (["応"] ++ contentTextChunks ⟨some [⟨some [3]⟩], some "答", true⟩))])) :=
  ⟨rfl, rfl,
    turn_complete_delivery ⟨[7], ["応"], none⟩ ⟨some ⟨some [⟨some [3]⟩], some "答", true⟩, none⟩
      ⟨some [⟨some [3]⟩], some "答", true⟩ rfl rfl⟩

/-! ## Claim C1: empty-audio, non-empty-text turns -/

/-- Helper for C1: with a repository and a meeting id, persisting a
non-empty reply stores exactly one conversation entry, whatever the
classification outcome. -/
theorem persistResponse_length (mid bid speaker : String) (text : String) :
    (persistResponse true (some mid) bid speaker text).length = 1 := by
  unfold persistResponse
  rcases h : classifyResponse text with ⟨c, c0⟩
  cases c0 <;> simp

/-- C1 counterexample: a turn-complete marker over an empty audio buffer
and the buffered text "こんにちは" does invoke the turn-complete callback, and
the local variant persists one entry, but the websocket sender task skips
the empty-audio turn before persistence, storing nothing — not exactly one
entry in both variants. -/
theorem ws_empty_audio_persist_cex :
    (processResponse ⟨[], ["こんにちは"], none⟩ turnMarkerResponse).2
      = [CallbackEvent.turnEnd [] "こんにちは"] ∧
    wsTurnEntries true (some "m1") "b1" "AI Avatar" [] "こんにちは" = [] ∧
    (localTurnEntries true (some "m1") "b1" "AI Avatar" [] "こんにちは").length = 1 := by
  refine ⟨?_, ?_, ?_⟩
  · decide
  · decide
  · decide

/-- C1 (amended): on a turn-complete marker with empty accumulated audio
and non-empty accumulated text, the receive loop still invokes the
turn-complete callback exactly once with that text; the local orchestrator
variant persists exactly one conversation entry (given a repository and
meeting id), while the websocket orchestrator variant skips the
empty-audio turn entirely and persists none. -/
theorem empty_audio_turn_amended (s : RecvState) (mid bid speaker : String)
    (hA : s.audioBuffer = []) (hT : String.join s.textBuffer ≠ "") :
    (processResponse s turnMarkerResponse).2
        = [CallbackEvent.turnEnd [] (String.join s.textBuffer)] ∧
    (localTurnEntries true (some mid) bid speaker [] (String.join s.textBuffer)).length = 1 ∧
    wsTurnEntries true (some mid) bid speaker [] (String.join s.textBuffer) = [] := by
  refine ⟨?_, ?_, ?_⟩
  · unfold processResponse turnMarkerResponse
    simp [contentAudioChunks, contentTextChunks, hA, hT]
  · unfold localTurnEntries
    rw [if_neg hT]
    exact persistResponse_length mid bid speaker _
  · unfold wsTurnEntries
    rfl

/-- C1 witness: the amended statement at a state buffering the two text
fragments "はい、" and "承知しました" with no audio. -/
theorem empty_audio_turn_amended_witness :
    ((⟨[], ["はい、", "承知しました"], none⟩ : RecvState).audioBuffer = [] ∧
      String.join (⟨[], ["はい、", "承知しました"], none⟩ : RecvState).textBuffer ≠ "") ∧
    ((processResponse ⟨[], ["はい、", "承知しました"], none⟩ turnMarkerResponse).2
        = [CallbackEvent.turnEnd []
            (String.join (⟨[], ["はい、", "承知しました"], none⟩ : RecvState).textBuffer)] ∧
      (localTurnEntries true (some "m9") "b9" "AI Avatar" []
        (String.join (⟨[], ["はい、", "承知しました"], none⟩ : RecvState).textBuffer)).length = 1 ∧
      wsTurnEntries true (some "m9") "b9" "AI Avatar" []
        (String.join (⟨[], ["はい、", "承知しました"], none⟩ : RecvState).textBuffer) = []) :=
  ⟨⟨rfl, by decide⟩,
    empty_audio_turn_amended ⟨[], ["はい、", "承知しました"], none⟩ "m9" "b9" "AI Avatar" rfl (by decide)⟩

/-! ## Claim C5: the response-trigger predicate -/

/-- The response predicate as the claim sentence literally reads: triggers
are matched against the lowercased text, and the question markers against
the text as given (no whitespace stripping). -/
def shouldRespondSpecLit (s : ConversationState) (text : String) : Bool :=
  if s.isResponding then false
  else
    s.triggers.any (fun t => hasSub (lowerChars text.data) t.data)
      || questionEnding text.data

/-- The response predicate as amended: the text is lowercased and stripped
of surrounding whitespace before both the trigger containment test and the
question-marker ending test. -/
def shouldRespondSpecTrim (s : ConversationState) (text : String) : Bool :=
  if s.isResponding then false
  else
    s.triggers.any (fun t => hasSub (trimChars (lowerChars text.data)) t.data)
      || questionEnding (trimChars (lowerChars text.data))

/-- C5 counterexample: with bot name "avatar" and no extra triggers, the
text "ok? " (trailing blank) is answered true by `should_respond`, which
strips before testing the ending, while the claim's reading — the text
ends with a question marker — is false. -/
theorem should_respond_trailing_blank_cex :
    shouldRespond ⟨"b1", "avatar", [], false, ["avatar"]⟩ "alice" "ok? " = true ∧
    shouldRespondSpecLit ⟨"b1", "avatar", [], false, ["avatar"]⟩ "ok? " = false := by
  refine ⟨?_, ?_⟩
  · decide
  · decide

/-- Helper for C5: the trigger for-loop with early return is the
existential scan of the trigger list. -/
theorem firstTriggerHit_any (ts : List String) (cs : List Char) :
    firstTriggerHit ts cs = ts.any (fun t => hasSub cs t.data) := by
  induction ts with
  | nil => rfl
  | cons t rest ih =>
    by_cases h : hasSub cs t.data
    · simp [firstTriggerHit, h]
    · simp [firstTriggerHit, h, ih]

/-- C5 (amended): `should_respond` is false while the lock is held, and
otherwise true exactly when the lowercased, whitespace-stripped text
contains some trigger (configured keyword or bot name) as a substring or
ends with a question marker. -/
theorem should_respond_amended (s : ConversationState) (speaker text : String) :
    shouldRespond s speaker text = shouldRespondSpecTrim s text := by
  unfold shouldRespond shouldRespondSpecTrim
  by_cases hl : s.isResponding
  · simp [hl]
  · simp only [hl, if_false, Bool.false_eq_true]
    rw [firstTriggerHit_any]
    by_cases h : s.triggers.any (fun t => hasSub (trimChars (lowerChars text.data)) t.data)
      <;> simp [h]

/-! ## Claim C6: response classification -/

/-- Helper for C6: the answered tag is a prefix of itself followed by
anything. -/
theorem tagAnswered_prefix_self (l : List Char) :
    tagAnswered.isPrefixOf (tagAnswered ++ l) = true := by
  simp [tagAnswered, List.isPrefixOf]

/-- Helper for C6: the taken-back tag is a prefix of itself followed by
anything. -/
theorem tagTakenBack_prefix_self (l : List Char) :
    tagTakenBack.isPrefixOf (tagTakenBack ++ l) = true := by
  simp [tagTakenBack, List.isPrefixOf]

/-- Helper for C6: the answered tag never matches text opening with the
taken-back tag. -/
theorem tagAnswered_not_prefix (l : List Char) :
    tagAnswered.isPrefixOf (tagTakenBack ++ l) = false := by
  simp [tagAnswered, tagTakenBack, List.isPrefixOf]

/-- Helper for C6: a tagged prefix lowercases to the tag followed by the
lowercased remainder. -/
theorem lowerChars_tag_append (pre rest : String) (tag : List Char)
    (h : lowerChars pre.data = tag) :
    lowerChars (pre ++ rest).data = tag ++ lowerChars rest.data := by
  rw [String.data_append]
  unfold lowerChars at h ⊢
  rw [List.map_append, h]

/-- Helper for C6: the characters after a tag-length prefix are the
remainder's characters. -/
theorem drop_tag_append (pre rest : String) (tag : List Char)
    (h : lowerChars pre.data = tag) :
    (pre ++ rest).data.drop tag.length = rest.data := by
  have hlen : pre.data.length = tag.length := by
    have hc := congrArg List.length h
    simpa [lowerChars] using hc
  rw [String.data_append, ← hlen, List.drop_left]

/-- C6 counterexample: the two-character reply "後日" contains the deferral
phrase "後日", yet the content fallback returns None (the short-text check
runs first), while the claim's ordering yields taken_back. -/
theorem classify_fallback_order_cex :
    classifyByContent "後日" = none ∧ classifyByContentClaim "後日" = some "taken_back" := by
  refine ⟨?_, ?_⟩
  · decide
  · decide

/-- C6 (amended): a reply beginning (case-insensitively) with [ANSWERED] or
[TAKEN_BACK] is returned with the tag and surrounding whitespace stripped
and the matching category; untagged replies are returned unchanged with no
category.  The content fallback gives None whenever the trimmed reply is
shorter than 5 characters — even if a deferral phrase occurs — and
otherwise taken_back when a deferral phrase occurs and answered when none
does.  In particular the spec's three examples hold. -/
theorem classify_response_amended :
    (∀ pre rest : String, lowerChars pre.data = tagAnswered →
      classifyResponse (pre ++ rest) = (strTrim rest, some "answered")) ∧
    (∀ pre rest : String, lowerChars pre.data = tagTakenBack →
      classifyResponse (pre ++ rest) = (strTrim rest, some "taken_back")) ∧
    (∀ text : String, tagAnswered.isPrefixOf (lowerChars text.data) = false →
      tagTakenBack.isPrefixOf (lowerChars text.data) = false →
      classifyResponse text = (text, none)) ∧
    (∀ text : String, (trimChars text.data).length < 5 → classifyByContent text = none) ∧
    (∀ text : String, 5 ≤ (trimChars text.data).length →
      classifyByContent text =
        (if deferralPhrases.any (fun p => hasSub text.data p.data) then some "taken_back"
         else some "answered")) ∧
    classifyResponse "[ANSWERED] foo" = ("foo", some "answered") ∧
    classifyResponse "[TAKEN_BACK] bar" = ("bar", some "taken_back") ∧
    classifyResponse "plain" = ("plain", none) := by
  refine ⟨?_, ?_, ?_, ?_, ?_, by decide, by decide, by decide⟩
  · intro pre rest h
    have hlow := lowerChars_tag_append pre rest tagAnswered h
    unfold classifyResponse
    rw [if_pos (by rw [hlow]; exact tagAnswered_prefix_self _)]
    rw [drop_tag_append pre rest tagAnswered h]
    rfl
  · intro pre rest h
    have hlow := lowerChars_tag_append pre rest tagTakenBack h
    unfold classifyResponse
    rw [if_neg (by rw [hlow, tagAnswered_not_prefix]; exact Bool.false_ne_true)]
    rw [if_pos (by rw [hlow]; exact tagTakenBack_prefix_self _)]
    rw [drop_tag_append pre rest tagTakenBack h]
    rfl
  · intro text h1 h2
    unfold classifyResponse
    rw [if_neg (by rw [h1]; exact Bool.false_ne_true),
      if_neg (by rw [h2]; exact Bool.false_ne_true)]
  · intro text h
    unfold classifyByContent
    rw [if_pos (by simp [h])]
  · intro text h5
    have hne : ¬(text = "") := by
      intro he
      rw [he] at h5
      have h0 : (trimChars ("" : String).data).length = 0 := by decide
      omega
    unfold classifyByContent
    rw [if_neg (by simp [hne]; omega)]

/-- C6 witness: the amended statement at mixed-case "[Answered] foo" for
the tag stripping and at "後日" for the short-text fallback. -/
theorem classify_response_amended_witness :
    (lowerChars ("[Answered]" : String).data = tagAnswered ∧
      classifyResponse ("[Answered]" ++ " foo") = (strTrim " foo", some "answered")) ∧
    ((trimChars ("後日" : String).data).length < 5 ∧ classifyByContent "後日" = none) :=
  ⟨⟨by decide, classify_response_amended.1 "[Answered]" " foo" (by decide)⟩,
   ⟨by decide, classify_response_amended.2.2.2.1 "後日" (by decide)⟩⟩
